import Mathlib

/-!
Shallow embedding of the eclis_ninja membership-enforcement bot.

The durable tables of `defender/db/repo/core.py` and
`defender/db/repo/management.py` are modelled as lists inside `DBState`;
each SQL operation becomes a pure function `DBState → DBState` (timestamps
`NOW()` are passed explicitly).  The enforcement, raid-detection and
reconciliation logic of `defender/bot.py` is modelled as pure functions over
this state, with platform lookups (`get_chat_member`) supplied as inputs and
platform side effects (ban attempts, notifications) returned as outputs.
-/

/-- Row of the `allowed_members` table (core.py `init_schema`). -/
structure AllowedRow where
  user_id : Int
  last_known_username : Option String
  first_name : Option String
  last_name : Option String
  updated_at : Int
deriving Repr, DecidableEq

/-- Row of the `seen_users` table, keyed by `(chat_id, user_id)`. -/
structure SeenRow where
  chat_id : Int
  user_id : Int
  last_seen : Int
deriving Repr, DecidableEq

/-- Row of the append-only `join_logs` table. -/
structure JoinLogRow where
  chat_id : Int
  chat_title : Option String
  user_id : Int
  username : Option String
  first_name : Option String
  last_name : Option String
  action_taken : Option String
deriving Repr, DecidableEq

/-- The durable database state: the tables created by `init_schema`
(core.py) and `init_management_schema` (management.py). -/
structure DBState where
  allowed_members : List AllowedRow := []
  protected_chats : List Int := []
  global_banned : List Int := []
  seen_users : List SeenRow := []
  join_logs : List JoinLogRow := []
  management_groups : List (Int × Int) := []
  mg_subgroups : List (Int × Int) := []
deriving Repr, DecidableEq

/-- Key predicate used by the `allowed_members` primary key. -/
def allowed_key (uid : Int) (r : AllowedRow) : Bool :=
  decide (r.user_id = uid)

/-- Key predicate used by the `seen_users` composite primary key. -/
def seen_key (chatId userId : Int) (r : SeenRow) : Bool :=
  decide (r.chat_id = chatId) && decide (r.user_id = userId)

/-- core.py `upsert_allowed_member`: INSERT ... ON CONFLICT (user_id)
DO UPDATE of the profile columns and `updated_at`. -/
def upsert_allowed_member (s : DBState) (now : Int) (uid : Int)
    (username firstName lastName : Option String) : DBState :=
  if s.allowed_members.any (allowed_key uid) then
    { s with allowed_members := s.allowed_members.map (fun r =>
        if allowed_key uid r then
          { r with last_known_username := username, first_name := firstName,
                   last_name := lastName, updated_at := now }
        else r) }
  else
    { s with allowed_members :=
        s.allowed_members ++ [⟨uid, username, firstName, lastName, now⟩] }

/-- core.py `remove_allowed_member`: DELETE WHERE user_id = uid. -/
def remove_allowed_member (s : DBState) (uid : Int) : DBState :=
  { s with allowed_members := s.allowed_members.filter (fun r => !(allowed_key uid r)) }

/-- core.py `is_allowed_member`: SELECT 1 WHERE user_id = uid. -/
def is_allowed_member (s : DBState) (uid : Int) : Bool :=
  s.allowed_members.any (allowed_key uid)

/-- core.py `add_protected_chat`: INSERT ... ON CONFLICT DO NOTHING. -/
def add_protected_chat (s : DBState) (chatId : Int) : DBState :=
  if chatId ∈ s.protected_chats then s
  else { s with protected_chats := s.protected_chats ++ [chatId] }

/-- core.py `remove_protected_chat`. -/
def remove_protected_chat (s : DBState) (chatId : Int) : DBState :=
  { s with protected_chats := s.protected_chats.filter (fun c => decide (c ≠ chatId)) }

/-- core.py `is_protected_chat`: SELECT 1 FROM protected_chats WHERE
chat_id = %s.  Note: only the flat `protected_chats` table is consulted;
`mg_subgroups` plays no part. -/
def is_protected_chat (s : DBState) (chatId : Int) : Bool :=
  decide (chatId ∈ s.protected_chats)

/-- core.py `list_protected_chats`: SELECT chat_id ... ORDER BY chat_id. -/
def list_protected_chats (s : DBState) : List Int :=
  s.protected_chats.mergeSort (fun a b => decide (a ≤ b))

/-- core.py `add_global_ban`: INSERT ... ON CONFLICT DO NOTHING. -/
def add_global_ban (s : DBState) (uid : Int) : DBState :=
  if uid ∈ s.global_banned then s
  else { s with global_banned := s.global_banned ++ [uid] }

/-- core.py `remove_global_ban`: DELETE WHERE user_id = uid. -/
def remove_global_ban (s : DBState) (uid : Int) : DBState :=
  { s with global_banned := s.global_banned.filter (fun u => decide (u ≠ uid)) }

/-- core.py `is_globally_banned`. -/
def is_globally_banned (s : DBState) (uid : Int) : Bool :=
  decide (uid ∈ s.global_banned)

/-- core.py `mark_seen`: INSERT ... ON CONFLICT (chat_id, user_id)
DO UPDATE SET last_seen = NOW(). -/
def mark_seen (s : DBState) (now : Int) (chatId userId : Int) : DBState :=
  if s.seen_users.any (seen_key chatId userId) then
    { s with seen_users := s.seen_users.map (fun r =>
        if seen_key chatId userId r then { r with last_seen := now } else r) }
  else
    { s with seen_users := s.seen_users ++ [⟨chatId, userId, now⟩] }

/-- core.py `get_seen_users`: SELECT user_id WHERE chat_id = %s
ORDER BY last_seen DESC LIMIT %s. -/
def get_seen_users (s : DBState) (chatId : Int) (limit : Nat) : List Int :=
  ((((s.seen_users.filter (fun r => decide (r.chat_id = chatId))).mergeSort
      (fun a b => decide (b.last_seen ≤ a.last_seen))).map
        (fun r => r.user_id)).take limit)

/-- core.py `log_join_event`: append-only INSERT into join_logs. -/
def log_join_event (s : DBState) (chatId : Int) (chatTitle : Option String)
    (userId : Int) (username firstName lastName : Option String)
    (actionTaken : Option String) : DBState :=
  { s with join_logs := s.join_logs ++
      [⟨chatId, chatTitle, userId, username, firstName, lastName, actionTaken⟩] }

/-- management.py `set_management_group`: upsert of the MG owner. -/
def set_management_group (s : DBState) (mgChatId ownerUserId : Int) : DBState :=
  if s.management_groups.any (fun p => decide (p.1 = mgChatId)) then
    { s with management_groups := s.management_groups.map (fun p =>
        if p.1 = mgChatId then (p.1, ownerUserId) else p) }
  else
    { s with management_groups := s.management_groups ++ [(mgChatId, ownerUserId)] }

/-- management.py `get_management_group_owner`. -/
def get_management_group_owner (s : DBState) (mgChatId : Int) : Option Int :=
  (s.management_groups.find? (fun p => decide (p.1 = mgChatId))).map (fun p => p.2)

/-- management.py `add_subgroup`: INSERT INTO mg_subgroups ... ON CONFLICT
DO NOTHING.  It touches no other table; in particular it does not insert
into `protected_chats`. -/
def add_subgroup (s : DBState) (mgChatId subgroupChatId : Int) : DBState :=
  if (mgChatId, subgroupChatId) ∈ s.mg_subgroups then s
  else { s with mg_subgroups := s.mg_subgroups ++ [(mgChatId, subgroupChatId)] }

/-! ## bot.py: anti-raid sliding window -/

/-- bot.py `RAID_WINDOW_SECONDS = 30`. -/
def RAID_WINDOW_SECONDS : Int := 30

/-- bot.py `RAID_THRESHOLD_JOINS = 10`. -/
def RAID_THRESHOLD_JOINS : Nat := 10

/-- bot.py `register_join`: appends the current timestamp to the room's
queue, then pops from the front while the head is strictly below
`now - RAID_WINDOW_SECONDS`, and returns the new map together with the
resulting queue length.  The `join_events` dict is modelled as a function
from chat id to timestamp list (empty list for absent keys, matching
`setdefault`). -/
def register_join (joinEvents : Int → List Int) (chatId : Int) (now : Int) :
    (Int → List Int) × Nat :=
  let q := (joinEvents chatId ++ [now]).dropWhile
    (fun t => decide (t < now - RAID_WINDOW_SECONDS))
  (fun c => if c = chatId then q else joinEvents c, q.length)

/-- The process-local raid-detection globals of bot.py: the `join_events`
dict and the `raid_notified_chats` set. -/
structure RaidGlobals where
  join_events : Int → List Int
  raid_notified_chats : List Int

/-- The raid-detection fragment shared by `on_new_members_message` and
`on_chat_member` (bot.py): register the join, and if the window count
reaches `RAID_THRESHOLD_JOINS` and the chat is not yet in
`raid_notified_chats`, add it to the set and alert (returned Bool).
The flag is never removed anywhere in the program. -/
def raid_step (g : RaidGlobals) (chatId now : Int) : RaidGlobals × Bool :=
  if RAID_THRESHOLD_JOINS ≤ (register_join g.join_events chatId now).2
      ∧ chatId ∉ g.raid_notified_chats then
    (⟨(register_join g.join_events chatId now).1,
      chatId :: g.raid_notified_chats⟩, true)
  else
    (⟨(register_join g.join_events chatId now).1, g.raid_notified_chats⟩, false)

/-- Number of raid alerts emitted for chat `target` while processing a
trace of join events `(chatId, timestamp)` starting from globals `g`. -/
def countAlerts : RaidGlobals → List (Int × Int) → Int → Nat
  | _, [], _ => 0
  | g, e :: rest, target =>
      (if (raid_step g e.1 e.2).2 = true ∧ e.1 = target then 1 else 0)
        + countAlerts (raid_step g e.1 e.2).1 rest target

/-! ## bot.py: enforcement -/

/-- Result of the platform lookup `context.bot.get_chat_member`;
`err` models the swallowed exception (`except Exception: pass`). -/
inductive MemberStatus where
  | status (st : String)
  | err
deriving Repr, DecidableEq

/-- The `m.status == "kicked"` test of the enforcement pre-check; a failed
lookup is treated as not-kicked (the handler proceeds). -/
def statusIsKicked : MemberStatus → Bool
  | .status st => decide (st = "kicked")
  | .err => false

/-- Observable outcome of one `enforce_user` invocation: the database
afterwards, whether `ban_chat_member` was attempted, and the list of admin
ids to whom a ban notification send was attempted. -/
structure EnforceResult where
  db : DBState
  banAttempted : Bool
  notified : List Int
deriving Repr, DecidableEq

/-- bot.py `enforce_user`: self guard, DB-ready guard, unconditional
`mark_seen`, already-kicked pre-check, global-ban check (ban and return),
allow-list check (ban, notify the super admins, record a join log with
action "banned"), otherwise no-op. -/
def enforce_user (adminIds : List Int) (botId : Int) (dbReady : Bool)
    (s : DBState) (chatId userId now : Int) (lookup : MemberStatus) :
    EnforceResult :=
  if userId = botId then ⟨s, false, []⟩
  else if dbReady = false then ⟨s, false, []⟩
  else
    let s1 := mark_seen s now chatId userId
    if statusIsKicked lookup = true then ⟨s1, false, []⟩
    else if is_globally_banned s1 userId = true then ⟨s1, true, []⟩
    else if is_allowed_member s1 userId = false then
      ⟨log_join_event s1 chatId none userId none none none (some "banned"),
        true, adminIds⟩
    else ⟨s1, false, []⟩

/-- Whether `seen_users` holds a row for `(chatId, userId)`. -/
def has_seen (s : DBState) (chatId userId : Int) : Bool :=
  s.seen_users.any (seen_key chatId userId)

/-! ## bot.py: super-admin operations -/

/-- bot.py `sa_unban_id` (database part): `remove_global_ban` followed by
`upsert_allowed_member` with empty profile fields. -/
def sa_unban (s : DBState) (now target : Int) : DBState :=
  upsert_allowed_member (remove_global_ban s target) now target none none none

/-- bot.py `sa_remove_member_id`: `remove_allowed_member`, then
`add_global_ban`, then a `ban_chat_member` attempt in every chat returned
by `list_protected_chats`.  Returns the final database and the list of
chats where a platform ban was attempted. -/
def sa_remove_member (s : DBState) (target : Int) : DBState × List Int :=
  let s2 := add_global_ban (remove_allowed_member s target) target
  (s2, list_protected_chats s2)

/-! ## bot.py: periodic reconciliation sweep -/

/-- The per-room body of bot.py `periodic_enforce`: over the bounded seen
set of the room, skip administrators, compute the ban predicate
(globally banned OR not allow-listed), skip users already kicked, and
attempt `ban_chat_member` for the rest.  Returns the user ids for which a
platform ban is attempted. -/
def sweep_room (s : DBState) (adminIds : List Int) (chatId : Int)
    (lookup : Int → MemberStatus) : List Int :=
  (get_seen_users s chatId 5000).filter (fun userId =>
    !(decide (userId ∈ adminIds))
      && (is_globally_banned s userId || !(is_allowed_member s userId))
      && !(statusIsKicked (lookup userId)))

/-! ## Helper lemmas -/

theorem mark_seen_global_banned (s : DBState) (now chatId userId : Int) :
    (mark_seen s now chatId userId).global_banned = s.global_banned := by
  unfold mark_seen; split <;> rfl

theorem mark_seen_allowed_members (s : DBState) (now chatId userId : Int) :
    (mark_seen s now chatId userId).allowed_members = s.allowed_members := by
  unfold mark_seen; split <;> rfl

theorem mark_seen_join_logs (s : DBState) (now chatId userId : Int) :
    (mark_seen s now chatId userId).join_logs = s.join_logs := by
  unfold mark_seen; split <;> rfl

theorem is_globally_banned_mark_seen (s : DBState) (now chatId userId uid : Int) :
    is_globally_banned (mark_seen s now chatId userId) uid = is_globally_banned s uid := by
  simp [is_globally_banned, mark_seen_global_banned]

theorem is_allowed_member_mark_seen (s : DBState) (now chatId userId uid : Int) :
    is_allowed_member (mark_seen s now chatId userId) uid = is_allowed_member s uid := by
  simp [is_allowed_member, mark_seen_allowed_members]

theorem seen_key_update (chatId userId now : Int) (r : SeenRow) :
    seen_key chatId userId
      (if seen_key chatId userId r then { r with last_seen := now } else r)
      = seen_key chatId userId r := by
  by_cases h : seen_key chatId userId r = true
  · simp only [h, if_pos]
    simp only [seen_key] at h ⊢
    exact h
  · simp only [Bool.not_eq_true] at h
    simp [h]

theorem mark_seen_has_seen (s : DBState) (now chatId userId : Int) :
    has_seen (mark_seen s now chatId userId) chatId userId = true := by
  unfold mark_seen has_seen
  by_cases h : s.seen_users.any (seen_key chatId userId) = true
  · rw [if_pos h]
    simp only [List.any_map]
    have he : (seen_key chatId userId ∘ fun r =>
        if seen_key chatId userId r then { r with last_seen := now } else r)
        = seen_key chatId userId := by
      funext r
      exact seen_key_update chatId userId now r
    rw [he]
    exact h
  · rw [if_neg h]
    simp [seen_key]

theorem log_join_event_seen_users (s : DBState) (chatId : Int)
    (chatTitle : Option String) (userId : Int)
    (username firstName lastName actionTaken : Option String) :
    (log_join_event s chatId chatTitle userId username firstName lastName
      actionTaken).seen_users = s.seen_users := rfl

theorem upsert_global_banned (s : DBState) (now uid : Int)
    (username firstName lastName : Option String) :
    (upsert_allowed_member s now uid username firstName lastName).global_banned
      = s.global_banned := by
  unfold upsert_allowed_member; split <;> rfl

theorem allowed_key_update (uid now : Int)
    (username firstName lastName : Option String) (r : AllowedRow) :
    allowed_key uid
      (if allowed_key uid r then
        { r with last_known_username := username, first_name := firstName,
                 last_name := lastName, updated_at := now }
       else r)
      = allowed_key uid r := by
  by_cases h : allowed_key uid r = true
  · simp only [h, if_pos]
    simp only [allowed_key] at h ⊢
    exact h
  · simp only [Bool.not_eq_true] at h
    simp [h]

theorem upsert_is_allowed (s : DBState) (now uid : Int)
    (username firstName lastName : Option String) :
    is_allowed_member (upsert_allowed_member s now uid username firstName lastName)
      uid = true := by
  unfold upsert_allowed_member is_allowed_member
  by_cases h : s.allowed_members.any (allowed_key uid) = true
  · rw [if_pos h]
    simp only [List.any_map]
    have he : (allowed_key uid ∘ fun r =>
        if allowed_key uid r then
          { r with last_known_username := username, first_name := firstName,
                   last_name := lastName, updated_at := now }
        else r) = allowed_key uid := by
      funext r
      exact allowed_key_update uid now username firstName lastName r
    rw [he]
    exact h
  · rw [if_neg h]
    simp [allowed_key]

/-- Number of `allowed_members` rows keyed by `uid`. -/
def count_allowed_rows (s : DBState) (uid : Int) : Nat :=
  s.allowed_members.countP (allowed_key uid)

theorem upsert_count_allowed_rows (s : DBState) (now uid : Int)
    (username firstName lastName : Option String) :
    count_allowed_rows (upsert_allowed_member s now uid username firstName lastName)
        uid
      = if count_allowed_rows s uid = 0 then 1 else count_allowed_rows s uid := by
  unfold upsert_allowed_member count_allowed_rows
  by_cases h : s.allowed_members.any (allowed_key uid) = true
  · rw [if_pos h]
    have hpos : s.allowed_members.countP (allowed_key uid) ≠ 0 := by
      rcases List.any_eq_true.mp h with ⟨r, hr, hkey⟩
      have := List.countP_pos_iff.mpr ⟨r, hr, hkey⟩
      omega
    rw [if_neg hpos]
    simp only [List.countP_map]
    have he : (allowed_key uid ∘ fun r =>
        if allowed_key uid r then
          { r with last_known_username := username, first_name := firstName,
                   last_name := lastName, updated_at := now }
        else r) = allowed_key uid := by
      funext r
      exact allowed_key_update uid now username firstName lastName r
    rw [he]
  · rw [if_neg h]
    have hfalse : s.allowed_members.any (allowed_key uid) = false := by
      simpa using h
    have hzero : s.allowed_members.countP (allowed_key uid) = 0 := by
      rw [List.countP_eq_zero]
      intro r hr
      simpa using (List.any_eq_false.mp hfalse) r hr
    simp [hzero, List.countP_append, allowed_key]

theorem raid_step_notified_mono (g : RaidGlobals) (c chatId now : Int)
    (h : c ∈ g.raid_notified_chats) :
    c ∈ (raid_step g chatId now).1.raid_notified_chats := by
  unfold raid_step
  split
  · exact List.mem_cons_of_mem _ h
  · exact h

theorem raid_step_false_of_notified (g : RaidGlobals) (chatId now : Int)
    (h : chatId ∈ g.raid_notified_chats) :
    (raid_step g chatId now).2 = false := by
  unfold raid_step
  rw [if_neg]
  intro hc
  exact hc.2 h

theorem raid_step_mem_of_true (g : RaidGlobals) (chatId now : Int)
    (h : (raid_step g chatId now).2 = true) :
    chatId ∈ (raid_step g chatId now).1.raid_notified_chats := by
  unfold raid_step at h ⊢
  by_cases hc : RAID_THRESHOLD_JOINS ≤ (register_join g.join_events chatId now).2
      ∧ chatId ∉ g.raid_notified_chats
  · rw [if_pos hc]
    exact List.mem_cons_self _ _
  · rw [if_neg hc] at h
    exact absurd h (by simp)

theorem countAlerts_eq_zero_of_notified (evts : List (Int × Int)) :
    ∀ g : RaidGlobals, ∀ c : Int, c ∈ g.raid_notified_chats →
      countAlerts g evts c = 0 := by
  induction evts with
  | nil => intro g c _; rfl
  | cons e rest ih =>
    intro g c h
    rw [countAlerts]
    rw [ih (raid_step g e.1 e.2).1 c (raid_step_notified_mono g c e.1 e.2 h)]
    by_cases hc : e.1 = c
    · subst hc
      rw [raid_step_false_of_notified g e.1 e.2 h]
      simp
    · simp [hc]

theorem countAlerts_le_one (evts : List (Int × Int)) :
    ∀ g : RaidGlobals, ∀ c : Int, countAlerts g evts c ≤ 1 := by
  induction evts with
  | nil => intro g c; simp [countAlerts]
  | cons e rest ih =>
    intro g c
    rw [countAlerts]
    by_cases hf : (raid_step g e.1 e.2).2 = true ∧ e.1 = c
    · rw [if_pos hf]
      have hmem : c ∈ (raid_step g e.1 e.2).1.raid_notified_chats := by
        rcases hf with ⟨h2, h1⟩
        subst h1
        exact raid_step_mem_of_true g e.1 e.2 h2
      rw [countAlerts_eq_zero_of_notified rest _ c hmem]
    · rw [if_neg hf]
      simpa using ih (raid_step g e.1 e.2).1 c

theorem length_dropWhile_sorted (c : Int) (l : List Int)
    (hs : List.Pairwise (fun a b : Int => a ≤ b) l) :
    (l.dropWhile (fun t => decide (t < c))).length
      = l.countP (fun t => decide (c ≤ t)) := by
  induction l with
  | nil => simp
  | cons a l ih =>
    rcases List.pairwise_cons.mp hs with ⟨ha, hl⟩
    by_cases h : a < c
    · rw [List.dropWhile_cons_of_pos (by simpa using h)]
      rw [ih hl]
      simp [List.countP_cons, not_le.mpr h]
    · rw [List.dropWhile_cons_of_neg (by simpa using h)]
      have hall : ∀ t ∈ a :: l, (fun t => decide (c ≤ t)) t = true := by
        intro t ht
        rcases List.mem_cons.mp ht with rfl | ht
        · simpa using not_lt.mp h
        · have := ha t ht
          simp only [decide_eq_true_eq]
          exact le_trans (not_lt.mp h) this
      rw [List.countP_eq_length.mpr hall]

/-! ## Claims -/

/-- Concrete state for claim C1: no flat protected chats, no subgroups. -/
def s_c1 : DBState := {}

/-- Claim C1 counterexample: after registering room 2 as a subgroup of
management group 1, room 2 is a registered subgroup yet
`is_protected_chat` still reports false — refuting the claimed
"flat protected OR registered subgroup" characterisation. -/
theorem c1_counterexample :
    (1, 2) ∈ (add_subgroup s_c1 1 2).mg_subgroups
    ∧ is_protected_chat (add_subgroup s_c1 1 2) 2 = false := by
  decide

/-- Claim C1 (amended): `is_protected_chat` is true exactly when the room
is in the flat `protected_chats` set, and registering a subgroup via
`add_subgroup` never changes the protection status of any room —
subgroup registration does not make a room protected. -/
theorem c1_subgroup_not_protected (s : DBState)
    (mgChatId subgroupChatId roomId : Int) :
    is_protected_chat (add_subgroup s mgChatId subgroupChatId) roomId
      = is_protected_chat s roomId
    ∧ (is_protected_chat s roomId = true ↔ roomId ∈ s.protected_chats) := by
  constructor
  · unfold add_subgroup is_protected_chat
    split <;> rfl
  · simp [is_protected_chat]

/-- Claim C4: after the unban operation (`sa_unban_id`: clear the global
ban, then upsert the user into the allow-list), the user is neither
globally banned nor missing from the allow-list. -/
theorem c4_unban_atomicity (s : DBState) (now target : Int) :
    is_globally_banned (sa_unban s now target) target = false
    ∧ is_allowed_member (sa_unban s now target) target = true := by
  constructor
  · unfold sa_unban
    simp [is_globally_banned, upsert_global_banned, remove_global_ban,
      List.mem_filter]
  · exact upsert_is_allowed _ _ _ _ _ _

/-- Claim C10: the remove-member operation (`sa_remove_member_id`) is not
a plain allow-list deletion: afterwards the target is absent from the
allow-list AND present in the global-ban set, and a platform ban is
attempted in exactly the protected chats. -/
theorem c10_remove_member_bans (s : DBState) (target : Int) :
    is_allowed_member (sa_remove_member s target).1 target = false
    ∧ is_globally_banned (sa_remove_member s target).1 target = true
    ∧ ∀ chatId : Int,
        chatId ∈ (sa_remove_member s target).2 ↔ chatId ∈ s.protected_chats := by
  refine ⟨?_, ?_, ?_⟩
  · have h1 : (add_global_ban (remove_allowed_member s target) target).allowed_members
        = (remove_allowed_member s target).allowed_members := by
      unfold add_global_ban
      split <;> rfl
    simp only [sa_remove_member, is_allowed_member, h1]
    rw [List.any_eq_false]
    intro r hr
    rcases List.mem_filter.mp hr with ⟨_, hkey⟩
    simp only [Bool.not_eq_true'] at hkey
    simp [hkey]
  · simp only [sa_remove_member, is_globally_banned, add_global_ban]
    by_cases h : target ∈ (remove_allowed_member s target).global_banned
    · simp [h]
    · simp [h]
  · intro chatId
    have h2 : (add_global_ban (remove_allowed_member s target) target).protected_chats
        = s.protected_chats := by
      unfold add_global_ban remove_allowed_member
      split <;> rfl
    simp only [sa_remove_member, list_protected_chats, h2]
    exact List.mem_mergeSort

/-- Concrete state for claim C2: room 7 protected, user 5 globally banned. -/
def s_c2 : DBState := { protected_chats := [7], global_banned := [5] }

/-- Claim C2 counterexample: enforcing a globally banned user in a
protected room attempts the platform ban, but records no JoinLog row and
emits no ban-notification — the global-ban branch bans and returns
immediately. -/
theorem c2_counterexample :
    is_protected_chat s_c2 7 = true
    ∧ is_globally_banned s_c2 5 = true
    ∧ (enforce_user [9] 1 true s_c2 7 5 100
        (MemberStatus.status "member")).banAttempted = true
    ∧ (enforce_user [9] 1 true s_c2 7 5 100
        (MemberStatus.status "member")).db.join_logs = []
    ∧ (enforce_user [9] 1 true s_c2 7 5 100
        (MemberStatus.status "member")).notified = [] := by
  decide

/-- Claim C2 (amended): for an enforcement evaluation in a protected room
where the user is globally banned (and not already kicked), the engine
attempts the platform ban and terminates without consulting the
allow-list, but it records NO JoinLog row and emits NO ban-notification
in this branch. -/
theorem c2_global_ban_short_circuit (adminIds : List Int) (botId : Int)
    (s : DBState) (chatId userId now : Int) (lk : MemberStatus)
    (hprot : is_protected_chat s chatId = true)
    (hbot : userId ≠ botId)
    (hban : is_globally_banned s userId = true)
    (hk : statusIsKicked lk = false) :
    (enforce_user adminIds botId true s chatId userId now lk).banAttempted = true
    ∧ (enforce_user adminIds botId true s chatId userId now lk).db.join_logs
        = s.join_logs
    ∧ (enforce_user adminIds botId true s chatId userId now lk).notified = [] := by
  have hb1 : is_globally_banned (mark_seen s now chatId userId) userId = true := by
    rw [is_globally_banned_mark_seen]
    exact hban
  simp [enforce_user, hbot, hk, hb1, mark_seen_join_logs]

/-- Claim C2 witness: the amended theorem applied at the concrete state. -/
theorem c2_witness :
    is_protected_chat s_c2 7 = true
    ∧ (5 : Int) ≠ 1
    ∧ is_globally_banned s_c2 5 = true
    ∧ statusIsKicked (MemberStatus.status "member") = false
    ∧ ((enforce_user [9] 1 true s_c2 7 5 100
          (MemberStatus.status "member")).banAttempted = true
       ∧ (enforce_user [9] 1 true s_c2 7 5 100
          (MemberStatus.status "member")).db.join_logs = s_c2.join_logs
       ∧ (enforce_user [9] 1 true s_c2 7 5 100
          (MemberStatus.status "member")).notified = []) :=
  ⟨by decide, by decide, by decide, by decide,
    c2_global_ban_short_circuit [9] 1 s_c2 7 5 100
      (MemberStatus.status "member") (by decide) (by decide) (by decide)
      (by decide)⟩

/-- Concrete state for claim C3: room 7 protected, user 5 globally
banned, user 5 not yet seen anywhere. -/
def s_c3 : DBState := { protected_chats := [7], global_banned := [5] }

/-- Claim C3 counterexample: a globally banned user (ban outcome, spec
state 4) IS marked seen by the evaluation, refuting "in the ban outcomes
the user is not marked seen". -/
theorem c3_counterexample :
    has_seen s_c3 7 5 = false
    ∧ (enforce_user [9] 1 true s_c3 7 5 100
        (MemberStatus.status "member")).banAttempted = true
    ∧ has_seen (enforce_user [9] 1 true s_c3 7 5 100
        (MemberStatus.status "member")).db 7 5 = true := by
  decide

/-- Claim C3 (amended): the checks are evaluated in first-match order, but
the user is marked seen at the start of EVERY enforcement evaluation that
passes the self and DB-ready guards — including the ban outcomes — not
only in the allowed outcome. -/
theorem c3_mark_seen_every_evaluation (adminIds : List Int) (botId : Int)
    (s : DBState) (chatId userId now : Int) (lk : MemberStatus)
    (hprot : is_protected_chat s chatId = true)
    (hbot : userId ≠ botId) :
    has_seen (enforce_user adminIds botId true s chatId userId now lk).db
      chatId userId = true := by
  have hs1 : has_seen (mark_seen s now chatId userId) chatId userId = true :=
    mark_seen_has_seen s now chatId userId
  simp only [enforce_user]
  split_ifs with h1 h2 h3 h4 h5
  · exact absurd h1 hbot
  · exact absurd h2 (by simp)
  · exact hs1
  · exact hs1
  · simpa only [has_seen, log_join_event_seen_users] using hs1
  · exact hs1

/-- Claim C3 witness: the amended theorem applied at the concrete state. -/
theorem c3_witness :
    is_protected_chat s_c3 7 = true
    ∧ (5 : Int) ≠ 1
    ∧ has_seen (enforce_user [9] 1 true s_c3 7 5 100
        (MemberStatus.status "member")).db 7 5 = true :=
  ⟨by decide, by decide,
    c3_mark_seen_every_evaluation [9] 1 s_c3 7 5 100
      (MemberStatus.status "member") (by decide) (by decide)⟩

/-- Claim C5: for a user who is simultaneously globally banned and
allow-listed (and not already kicked), an enforcement evaluation in a
protected room attempts the ban: the global-ban check precedes and
dominates the allow-list check. -/
theorem c5_ban_precedence (adminIds : List Int) (botId : Int) (s : DBState)
    (chatId userId now : Int) (lk : MemberStatus)
    (hprot : is_protected_chat s chatId = true)
    (hbot : userId ≠ botId)
    (hban : is_globally_banned s userId = true)
    (hallow : is_allowed_member s userId = true)
    (hk : statusIsKicked lk = false) :
    (enforce_user adminIds botId true s chatId userId now lk).banAttempted
      = true := by
  have hb1 : is_globally_banned (mark_seen s now chatId userId) userId = true := by
    rw [is_globally_banned_mark_seen]
    exact hban
  simp [enforce_user, hbot, hk, hb1]

/-- Concrete state for claim C5: user 5 both globally banned and
allow-listed, room 7 protected. -/
def s_c5 : DBState :=
  { protected_chats := [7], global_banned := [5],
    allowed_members := [⟨5, none, none, none, 0⟩] }

/-- Claim C5 witness: the theorem applied at the concrete state. -/
theorem c5_witness :
    is_protected_chat s_c5 7 = true
    ∧ (5 : Int) ≠ 1
    ∧ is_globally_banned s_c5 5 = true
    ∧ is_allowed_member s_c5 5 = true
    ∧ statusIsKicked (MemberStatus.status "member") = false
    ∧ (enforce_user [9] 1 true s_c5 7 5 100
        (MemberStatus.status "member")).banAttempted = true :=
  ⟨by decide, by decide, by decide, by decide, by decide,
    c5_ban_precedence [9] 1 s_c5 7 5 100 (MemberStatus.status "member")
      (by decide) (by decide) (by decide) (by decide) (by decide)⟩

/-- Concrete join-window map for claim C6: room 1 holds one join at
time 0. -/
def je_c6 : Int → List Int := fun c => if c = 1 then [0] else []

/-- Claim C6 counterexample: with a join registered at time 0,
`register_join` at time 30 returns 2, but only 1 registered timestamp
lies in the claimed half-open interval (30 − 30, 30]: the timestamp
exactly 30 seconds old is NOT excluded by the code. -/
theorem c6_counterexample :
    (register_join je_c6 1 30).2 = 2
    ∧ ((je_c6 1 ++ [30]).countP
        (fun t => decide (30 - RAID_WINDOW_SECONDS < t) && decide (t ≤ 30)))
      = 1 := by
  decide

/-- Claim C6 (amended): with the room's window sorted, `register_join` at
time `now` appends `now`, prunes strictly-older entries, and returns the
count of registered timestamps in the CLOSED interval
[now − 30s, now] — a timestamp exactly 30 seconds old is included. -/
theorem c6_sliding_window_closed (joinEvents : Int → List Int)
    (chatId now : Int)
    (hs : List.Pairwise (fun a b : Int => a ≤ b) (joinEvents chatId ++ [now])) :
    (register_join joinEvents chatId now).2
      = (joinEvents chatId ++ [now]).countP
          (fun t => decide (now - RAID_WINDOW_SECONDS ≤ t)) := by
  simp only [register_join]
  exact length_dropWhile_sorted (now - RAID_WINDOW_SECONDS) _ hs

/-- Claim C6 witness: the amended theorem applied at the concrete map. -/
theorem c6_witness :
    List.Pairwise (fun a b : Int => a ≤ b) (je_c6 1 ++ [30])
    ∧ (register_join je_c6 1 30).2
        = (je_c6 1 ++ [30]).countP
            (fun t => decide (30 - RAID_WINDOW_SECONDS ≤ t)) :=
  ⟨by decide, c6_sliding_window_closed je_c6 1 30 (by decide)⟩

/-- Claim C7: processing any trace of join events, a room alerts at most
once per process lifetime; with the room's notified flag already set no
alert is ever produced again (the flag is never cleared); and a single
step alerts exactly when the window count reaches the threshold and the
flag is not yet set. -/
theorem c7_raid_one_shot (g : RaidGlobals) (evts : List (Int × Int))
    (c now : Int) :
    countAlerts g evts c ≤ 1
    ∧ countAlerts
        { g with raid_notified_chats := c :: g.raid_notified_chats } evts c = 0
    ∧ (raid_step g c now).2
        = (decide (RAID_THRESHOLD_JOINS ≤ (register_join g.join_events c now).2)
            && !(decide (c ∈ g.raid_notified_chats))) := by
  refine ⟨countAlerts_le_one evts g c,
    countAlerts_eq_zero_of_notified evts _ c (List.mem_cons_self c _), ?_⟩
  by_cases h1 : RAID_THRESHOLD_JOINS ≤ (register_join g.join_events c now).2
    <;> by_cases h2 : c ∈ g.raid_notified_chats
    <;> simp [raid_step, h1, h2]

/-- Claim C8: a reconciliation sweep of a protected room never attempts a
ban against a member of the room's current administrator set, whatever
the ban/allow status of the candidates. -/
theorem c8_sweep_skips_admins (s : DBState) (adminIds : List Int)
    (chatId : Int) (lookup : Int → MemberStatus) :
    (sweep_room s adminIds chatId lookup).all
      (fun userId => !(decide (userId ∈ adminIds))) = true := by
  rw [List.all_eq_true]
  intro u hu
  rcases List.mem_filter.mp hu with ⟨_, hpred⟩
  simp only [Bool.and_eq_true] at hpred
  simpa using hpred.1.1

/-- Concrete state for claim C9: empty database. -/
def s_c9 : DBState := {}

/-- Claim C9: starting from a state respecting the primary-key invariant,
upserting the same user twice (with possibly different profiles) leaves
exactly one allow-list row for that user, and the user is allow-listed
after either call. -/
theorem c9_upsert_idempotent (s : DBState) (n1 n2 uid : Int)
    (u1 f1 l1 u2 f2 l2 : Option String)
    (hpk : count_allowed_rows s uid ≤ 1) :
    count_allowed_rows
        (upsert_allowed_member (upsert_allowed_member s n1 uid u1 f1 l1)
          n2 uid u2 f2 l2) uid = 1
    ∧ is_allowed_member (upsert_allowed_member s n1 uid u1 f1 l1) uid = true
    ∧ is_allowed_member
        (upsert_allowed_member (upsert_allowed_member s n1 uid u1 f1 l1)
          n2 uid u2 f2 l2) uid = true := by
  have h1 : count_allowed_rows (upsert_allowed_member s n1 uid u1 f1 l1) uid
      = 1 := by
    rw [upsert_count_allowed_rows]
    by_cases h : count_allowed_rows s uid = 0
    · simp [h]
    · have h2 : count_allowed_rows s uid = 1 := by omega
      simp [h, h2]
  refine ⟨?_, upsert_is_allowed _ _ _ _ _ _, upsert_is_allowed _ _ _ _ _ _⟩
  rw [upsert_count_allowed_rows, h1]
  simp

/-- Claim C9 witness: the theorem applied at the empty database. -/
theorem c9_witness :
    count_allowed_rows s_c9 5 ≤ 1
    ∧ (count_allowed_rows
        (upsert_allowed_member (upsert_allowed_member s_c9 10 5 none none none)
          20 5 (some "x") none none) 5 = 1
      ∧ is_allowed_member (upsert_allowed_member s_c9 10 5 none none none) 5
          = true
      ∧ is_allowed_member
          (upsert_allowed_member (upsert_allowed_member s_c9 10 5 none none none)
            20 5 (some "x") none none) 5 = true) :=
  ⟨by decide,
    c9_upsert_idempotent s_c9 10 20 5 none none none (some "x") none none
      (by decide)⟩
